import Mathlib

/-!
Shallow embedding of the adaptive progress estimation subsystem of the
`chef_context` repository: the estimate store (`lib/eta.ts`), the countdown
scheduler (`lib/countdown.ts`), the completion transition
(`lib/smooth-finish.ts`) and the controller hook
(`hooks/useAdaptiveProgress.ts`).

Modelling conventions:
* `window.localStorage` (reachable only when `window` is defined) is modelled
  as `Option Store` with `Store := String → Option String`; `none` is the
  storage-unavailable case (`typeof window === "undefined"` in the source).
* JavaScript numbers are modelled as exact integers / rationals.  Every
  quantity handled by this code is an integer millisecond count far below
  2^53, where double arithmetic of the shapes used here (`x*0.6 + y*0.4`
  followed by `Math.round`, comparisons, `min`/`max`) agrees with exact
  rational arithmetic: the exact value of `x*0.6 + y*0.4` has fractional
  part in {0, 1/5, 2/5, 3/5, 4/5}, so the float rounding error (far below
  1/5 at these magnitudes) never moves the result across a `Math.round`
  boundary.
* `Math.round` rounds half toward positive infinity, i.e. `⌊x + 1/2⌋`.
* The browser event loop driving `setInterval` is modelled by an explicit
  event trace (`TimerEvent`): either the wall clock advances or the interval
  callback fires.  Everything is single threaded, as in JavaScript.
-/

namespace ChefContext

/-- The persistence boundary: a string key/value store (`localStorage`). -/
abbrev Store := String → Option String

/-- Source `lib/eta.ts`:
`const clamp = (v, min, max) => Math.min(max, Math.max(min, v));`. -/
def clamp (v lo hi : Int) : Int := min hi (max lo v)

/-- Whitespace skipped by JavaScript `parseInt` (the ASCII cases: space, tab,
line feed, vertical tab, form feed, carriage return). -/
def isJsSpace (c : Char) : Bool :=
  c = ' ' || c = '\t' || c = '\n' || c = '\r' || c.toNat = 11 || c.toNat = 12

/-- Decimal digit character. -/
def isDigitChar (c : Char) : Bool :=
  48 ≤ c.toNat && c.toNat ≤ 57

/-- Numeric value of a big-endian list of decimal digit characters. -/
def digitsVal (ds : List Char) : Nat :=
  ds.foldl (fun acc c => 10 * acc + (c.toNat - 48)) 0

/-- JavaScript `parseInt(s, 10)`: skip leading whitespace, take an optional
sign, then the longest prefix of decimal digits; `none` models `NaN`
(no digits found). -/
def parseIntDec (s : String) : Option Int :=
  let cs := s.data.dropWhile isJsSpace
  let signed : Bool × List Char :=
    match cs with
    | '-' :: rest => (true, rest)
    | '+' :: rest => (false, rest)
    | _ => (false, cs)
  let ds := signed.2.takeWhile isDigitChar
  if ds.isEmpty then none
  else if signed.1 then some (-(digitsVal ds : Int)) else some (digitsVal ds : Int)

/-- JavaScript `Math.round`: round half toward positive infinity, `⌊x + 1/2⌋`. -/
def jsRound (q : ℚ) : Int := Int.floor (q + 1/2)

/-- The body of `Math.round(prev * 0.6 + elapsedMs * 0.4)` computed exactly
over the integers: the exact value of the sum is `(6p + 4q)/10`, and rounding
half toward positive infinity gives `⌊(6p + 4q + 5)/10⌋`, i.e. integer floor
division (on `Int`, `/` is Euclidean division, which is floor division for a
positive divisor).  `emaRound_eq_jsRound` below proves this agrees with the
rational formula. -/
def emaRound (prev elapsedMs : Int) : Int := (6 * prev + 4 * elapsedMs + 5) / 10

/-- Source `lib/eta.ts` `readETA` (in the source `defMs` is an optional
parameter defaulting to `60_000`; here it is passed explicitly at every
call site):

  if (typeof window === "undefined") return defMs;
  const raw = window.localStorage.getItem(key);
  const v = raw ? parseInt(raw, 10) : defMs;        (null and "" are falsy)
  return clamp(Number.isFinite(v) ? v : defMs, 5_000, 15 * 60_000);
-/
def readETA (store : Option Store) (key : String) (defMs : Int) : Int :=
  match store with
  | none => defMs
  | some m =>
    match m key with
    | none => clamp defMs 5000 900000
    | some raw =>
      if raw = "" then clamp defMs 5000 900000
      else
        match parseIntDec raw with
        | some v => clamp v 5000 900000
        | none => clamp defMs 5000 900000

/-- Source `lib/eta.ts` `updateETA`:

  const prev = readETA(key);                        (default `defMs = 60_000`)
  const ema = Math.round(prev * 0.6 + elapsedMs * 0.4);
  if (typeof window !== "undefined") window.localStorage.setItem(key, String(ema));
-/
def updateETA (store : Option Store) (key : String) (elapsedMs : Int) : Option Store :=
  let prev := readETA store key 60000
  let ema := emaRound prev elapsedMs
  match store with
  | none => none
  | some m => some (fun k => if k = key then some (toString ema) else m k)

/-- Source `lib/eta.ts` `clearETA`:
`if (typeof window !== "undefined") window.localStorage.removeItem(key);`. -/
def clearETA (store : Option Store) (key : String) : Option Store :=
  match store with
  | none => none
  | some m => some (fun k => if k = key then none else m k)

/-- Look a key up through the availability layer. -/
def storeGet (store : Option Store) (key : String) : Option String :=
  match store with
  | none => none
  | some m => m key

/-- The everywhere-empty storage (no key persisted). -/
def emptyStore : Store := fun _ => none

/-- The update operation exactly as claim C1 words it, kept side by side with
the source's `updateETA` for comparison: `previous = read(key,
observedElapsedMs)` (the observation serves as the read fallback), and the
rounded EMA is clamped to `[5_000, 900_000]` before being persisted. -/
def updateETASpec (store : Option Store) (key : String) (elapsedMs : Int) : Option Store :=
  let prev := readETA store key elapsedMs
  let next := clamp (emaRound prev elapsedMs) 5000 900000
  match store with
  | none => none
  | some m => some (fun k => if k = key then some (toString next) else m k)

/-!
## Countdown scheduler (`lib/countdown.ts`)

  export function startCountdown(expectedMs, onTick, stepMs = 100) {
    const t0 = now();
    onTick(expectedMs);
    const id = setInterval(() => {
      const elapsed = now() - t0;
      const remaining = Math.max(0, expectedMs - elapsed);
      onTick(remaining);
    }, stepMs);
    return { stop: () => { clearInterval(id); return { elapsedMs: now() - t0 }; } };
  }

The single-threaded event loop is modelled by an explicit trace of events:
the wall clock advances, or the interval callback fires.  The `stepMs`
cadence of `setInterval` is abstracted as arbitrary clock advances between
fires (`Date.now()` differences need not be exact multiples of `stepMs`).
The state records every value passed to `onTick`, oldest first.
-/

/-- State of one countdown session together with the clock and the list of
values passed to `onTick` (oldest first). -/
structure Countdown where
  expectedMs : Int
  t0 : Nat
  nowMs : Nat
  active : Bool
  emitted : List Int

/-- Source `startCountdown`: record `t0 = now()`, immediately call
`onTick(expectedMs)`, install the interval callback. -/
def startCountdown (expectedMs : Int) (startTime : Nat) : Countdown :=
  { expectedMs := expectedMs, t0 := startTime, nowMs := startTime,
    active := true, emitted := [expectedMs] }

/-- Event-loop events: the wall clock advances by `d` milliseconds, or the
scheduled interval callback fires. -/
inductive TimerEvent where
  | advance (d : Nat)
  | fire

/-- One event-loop step.  A `fire` runs the interval callback
`onTick(Math.max(0, expectedMs - (now() - t0)))`, but only while the
interval is installed: after `clearInterval` (`active = false`) a fire is a
no-op, which is exactly the guarantee the JS event loop gives for a tick
that was scheduled concurrently with `stop`. -/
def stepEvent (c : Countdown) : TimerEvent → Countdown
  | .advance d => { c with nowMs := c.nowMs + d }
  | .fire =>
    if c.active then
      { c with emitted :=
          c.emitted ++ [max 0 (c.expectedMs - ((c.nowMs - c.t0 : Nat) : Int))] }
    else c

/-- Run a trace of event-loop events. -/
def runEvents (c : Countdown) (evs : List TimerEvent) : Countdown :=
  evs.foldl stepEvent c

/-- Source `stop`: `clearInterval(id); return { elapsedMs: now() - t0 };`. -/
def Countdown.stop (c : Countdown) : Countdown × Nat :=
  ({ c with active := false }, c.nowMs - c.t0)

/-- Total wall-clock time advanced by a trace. -/
def totalAdvance : List TimerEvent → Nat
  | [] => 0
  | .advance d :: rest => d + totalAdvance rest
  | .fire :: rest => totalAdvance rest

/-!
## Completion transition and controller
(`lib/smooth-finish.ts`, `hooks/useAdaptiveProgress.ts`)
-/

/-- The React state owned by `useAdaptiveProgress`. -/
structure UI where
  expectedMs : Int
  remainingMs : Option Int
  busy : Bool

/-- Source `smoothFinish`: `setRemainingMs(0)`, dwell, `setBusy(false)`,
`setRemainingMs(null)`; the state after the transition completes. -/
def smoothFinish (ui : UI) : UI :=
  let u1 : UI := { ui with remainingMs := some 0 }
  let u2 : UI := { u1 with busy := false }
  { u2 with remainingMs := none }

/-- Outcome of one `runWithETA` invocation: final storage, final UI state,
the result or re-raised error, and whether the countdown interval is still
installed. -/
structure RunResult (ε α : Type) where
  store : Option Store
  ui : UI
  outcome : Except ε α
  countdownActive : Bool

/-- Source `runWithETA` from `hooks/useAdaptiveProgress.ts`:

  setBusy(true);
  const eta = readETA(etaKey, defaultMs);
  setExpectedMs(eta);
  const countdown = startCountdown(eta, setRemainingMs);
  try {
    const result = await task();
    const { elapsedMs } = countdown.stop();
    updateETA(etaKey, elapsedMs);
    await smoothFinish(setRemainingMs, setBusy);
    return result;
  } catch (e) {
    countdown.stop();
    await smoothFinish(setRemainingMs, setBusy);
    throw e;
  }

The wrapped task is abstracted by its settled `outcome` and by the event
trace `evs` the event loop performs while it is awaited (clock advances and
interval fires); `remainingMs` during the run is the last value the
countdown passed to `onTick` (= `setRemainingMs`). -/
def runWithETA {ε α : Type} (key : String) (defaultMs : Int) (store : Option Store)
    (outcome : Except ε α) (evs : List TimerEvent) : RunResult ε α :=
  let eta := readETA store key defaultMs
  let cd := runEvents (startCountdown eta 0) evs
  let stopped := cd.stop
  let uiRun : UI := { expectedMs := eta, remainingMs := cd.emitted.getLast?, busy := true }
  match outcome with
  | .ok a =>
    { store := updateETA store key (stopped.2 : Int), ui := smoothFinish uiRun,
      outcome := .ok a, countdownActive := stopped.1.active }
  | .error e =>
    { store := store, ui := smoothFinish uiRun,
      outcome := .error e, countdownActive := stopped.1.active }

/-- Derived `percent` from `useAdaptiveProgress`:

  if (remainingMs === null) return 0;
  return Math.min(100, Math.max(0, ((expectedMs - remainingMs) / expectedMs) * 100));
-/
def percent (expectedMs : ℚ) (remainingMs : Option ℚ) : ℚ :=
  match remainingMs with
  | none => 0
  | some r => min 100 (max 0 ((expectedMs - r) / expectedMs * 100))

/-- Invariant maintained by the countdown event loop: something was emitted,
the first emission was `expectedMs`, emissions are non-increasing and
non-negative, and the most recent emission dominates the value the callback
would emit now. -/
def TickInv (c : Countdown) : Prop :=
  c.emitted ≠ []
  ∧ c.emitted.head? = some c.expectedMs
  ∧ List.Chain' (fun a b => b ≤ a) c.emitted
  ∧ (∀ v ∈ c.emitted, 0 ≤ v)
  ∧ (∀ l, c.emitted.getLast? = some l →
      max 0 (c.expectedMs - ((c.nowMs - c.t0 : Nat) : Int)) ≤ l)

/-!
## Helper lemmas
-/

/-- `Rat.floor` is the `FloorRing` floor on `ℚ`. -/
theorem ratFloor_eq_floor (q : ℚ) : Rat.floor q = Int.floor q := by
  rw [Rat.floor_def', Rat.floor_def]

/-- Faithfulness of the integer encoding of the source's
`Math.round(prev * 0.6 + elapsedMs * 0.4)`: `emaRound` agrees with the
rational formula rounded half toward positive infinity. -/
theorem emaRound_eq_jsRound (p q : Int) :
    emaRound p q = jsRound ((p : ℚ) * (6/10) + (q : ℚ) * (4/10)) := by
  unfold emaRound jsRound
  have h : ((p : ℚ) * (6/10) + (q : ℚ) * (4/10) + 1/2)
      = ((6*p + 4*q + 5 : ℤ) : ℚ) / ((10:ℕ) : ℚ) := by
    push_cast; ring
  rw [h, Rat.floor_intCast_div_natCast]
  norm_num

theorem clamp_low (v : Int) : 5000 ≤ clamp v 5000 900000 :=
  le_min (by norm_num) (le_max_left _ _)

theorem clamp_high (v : Int) : clamp v 5000 900000 ≤ 900000 := min_le_left _ _

theorem parseIntDec_empty : parseIntDec "" = none := by decide

theorem readETA_eq_of_none (m : Store) (key : String) (defMs : Int) (h : m key = none) :
    readETA (some m) key defMs = clamp defMs 5000 900000 := by
  simp only [readETA, h]

theorem readETA_eq_of_parse (m : Store) (key : String) (defMs : Int) (raw : String) (n : Int)
    (h : m key = some raw) (hp : parseIntDec raw = some n) :
    readETA (some m) key defMs = clamp n 5000 900000 := by
  have hne : raw ≠ "" := by
    intro he
    rw [he, parseIntDec_empty] at hp
    cases hp
  simp only [readETA, h, if_neg hne, hp]

theorem readETA_eq_of_parse_none (m : Store) (key : String) (defMs : Int) (raw : String)
    (h : m key = some raw) (hp : parseIntDec raw = none) :
    readETA (some m) key defMs = clamp defMs 5000 900000 := by
  by_cases hne : raw = ""
  · subst hne
    simp [readETA, h]
  · simp only [readETA, h, if_neg hne, hp]

theorem readETA_avail_range (m : Store) (key : String) (defMs : Int) :
    5000 ≤ readETA (some m) key defMs ∧ readETA (some m) key defMs ≤ 900000 := by
  rcases hmk : m key with _ | raw
  · rw [readETA_eq_of_none m key defMs hmk]
    exact ⟨clamp_low _, clamp_high _⟩
  · rcases hp : parseIntDec raw with _ | n
    · rw [readETA_eq_of_parse_none m key defMs raw hmk hp]
      exact ⟨clamp_low _, clamp_high _⟩
    · rw [readETA_eq_of_parse m key defMs raw n hmk hp]
      exact ⟨clamp_low _, clamp_high _⟩

theorem tickInv_start (E : Int) (t : Nat) (hE : 0 ≤ E) : TickInv (startCountdown E t) := by
  refine ⟨by simp [startCountdown], by simp [startCountdown], by simp [startCountdown], ?_, ?_⟩
  · intro v hv
    simp [startCountdown] at hv
    omega
  · intro l hl
    simp [startCountdown] at hl
    subst hl
    simp [startCountdown, Nat.sub_self]
    exact hE

theorem tickInv_step (c : Countdown) (ev : TimerEvent) (h : TickInv c) :
    TickInv (stepEvent c ev) := by
  obtain ⟨h1, h2, h3, h4, h5⟩ := h
  cases ev with
  | advance d =>
    refine ⟨h1, h2, h3, h4, ?_⟩
    intro l hl
    refine le_trans ?_ (h5 l hl)
    apply max_le_max le_rfl
    apply sub_le_sub_left
    exact_mod_cast Nat.sub_le_sub_right (Nat.le_add_right _ _) _
  | fire =>
    cases ha : c.active with
    | false =>
      simp only [stepEvent, ha, Bool.false_eq_true, if_false]
      exact ⟨h1, h2, h3, h4, h5⟩
    | true =>
      simp only [stepEvent, ha, if_true]
      refine ⟨by simp, ?_, ?_, ?_, ?_⟩
      · rw [List.head?_append_of_ne_nil _ h1]
        exact h2
      · refine List.chain'_append.mpr ⟨h3, List.chain'_singleton _, ?_⟩
        intro a ha' b hb
        simp only [List.head?_cons, Option.mem_some_iff] at hb
        subst hb
        exact h5 a (Option.mem_def.mp ha')
      · intro v hv
        rcases List.mem_append.mp hv with hv | hv
        · exact h4 v hv
        · simp only [List.mem_singleton] at hv
          subst hv
          exact le_max_left _ _
      · intro l hl
        rw [List.getLast?_concat] at hl
        cases hl
        exact le_rfl

theorem tickInv_runEvents (evs : List TimerEvent) (c : Countdown) (h : TickInv c) :
    TickInv (runEvents c evs) := by
  induction evs generalizing c with
  | nil => exact h
  | cons ev rest ih => exact ih (stepEvent c ev) (tickInv_step c ev h)

theorem stepEvent_expectedMs (c : Countdown) (ev : TimerEvent) :
    (stepEvent c ev).expectedMs = c.expectedMs := by
  cases ev with
  | advance d => rfl
  | fire => cases ha : c.active <;> simp [stepEvent, ha]

theorem runEvents_expectedMs (evs : List TimerEvent) (c : Countdown) :
    (runEvents c evs).expectedMs = c.expectedMs := by
  induction evs generalizing c with
  | nil => rfl
  | cons ev rest ih =>
    exact (ih (stepEvent c ev)).trans (stepEvent_expectedMs c ev)

theorem stepEvent_t0 (c : Countdown) (ev : TimerEvent) :
    (stepEvent c ev).t0 = c.t0 := by
  cases ev with
  | advance d => rfl
  | fire => cases ha : c.active <;> simp [stepEvent, ha]

theorem runEvents_t0 (evs : List TimerEvent) (c : Countdown) :
    (runEvents c evs).t0 = c.t0 := by
  induction evs generalizing c with
  | nil => rfl
  | cons ev rest ih =>
    exact (ih (stepEvent c ev)).trans (stepEvent_t0 c ev)

theorem runEvents_nowMs (evs : List TimerEvent) (c : Countdown) :
    (runEvents c evs).nowMs = c.nowMs + totalAdvance evs := by
  induction evs generalizing c with
  | nil => simp [runEvents, totalAdvance]
  | cons ev rest ih =>
    cases ev with
    | advance d =>
      show (runEvents (stepEvent c (.advance d)) rest).nowMs = _
      rw [ih]
      simp [stepEvent, totalAdvance]
      omega
    | fire =>
      show (runEvents (stepEvent c .fire) rest).nowMs = _
      rw [ih]
      have hn : (stepEvent c .fire).nowMs = c.nowMs := by
        cases ha : c.active <;> simp [stepEvent, ha]
      rw [hn]
      simp [totalAdvance]

theorem runEvents_inactive (evs : List TimerEvent) (c : Countdown) (h : c.active = false) :
    (runEvents c evs).emitted = c.emitted ∧ (runEvents c evs).active = false := by
  induction evs generalizing c with
  | nil => exact ⟨rfl, h⟩
  | cons ev rest ih =>
    have ha : (stepEvent c ev).active = false := by
      cases ev <;> simp [stepEvent, h]
    have he : (stepEvent c ev).emitted = c.emitted := by
      cases ev <;> simp [stepEvent, h]
    obtain ⟨e1, e2⟩ := ih (stepEvent c ev) ha
    exact ⟨e1.trans he, e2⟩

/-!
## Claim theorems
-/

/-- Claim C1, counterexample: the claim says `update(key, observedElapsedMs)`
computes the EMA against `previous = read(key, observedElapsedMs)` and
persists it clamped to `[5_000, 900_000]`.  With nothing persisted and an
observed elapsed time of 10_000_000 ms, that formula would persist
`"900000"` (as `updateETASpec` does), but the code persists `"4036000"`:
`previous` is read with the store's own fixed default 60_000, and the
persisted value is not clamped. -/
theorem updateETA_claim_counterexample :
    storeGet (updateETA (some emptyStore) "k" 10000000) "k" = some "4036000"
    ∧ storeGet (updateETASpec (some emptyStore) "k" 10000000) "k" = some "900000"
    ∧ (some "4036000" : Option String) ≠ some "900000" :=
  ⟨by decide, by decide, by decide⟩

/-- Claim C1, amended: for every key and observed elapsed time,
`updateETA(key, elapsedMs)` computes `round(0.6 * previous + 0.4 * elapsedMs)`
where `previous = read(key, 60_000)` — the store's fixed default, not the
observation, serves as the read fallback — and persists that value under the
key without clamping it; `previous` itself is within `[5_000, 900_000]`
because `read` clamps, and out-of-range persisted values are clamped again
on any subsequent read (see `estimate_range_on_read`). -/
theorem updateETA_persists_unclamped_ema (m : Store) (key : String) (elapsedMs : Int) :
    storeGet (updateETA (some m) key elapsedMs) key
      = some (toString (jsRound ((readETA (some m) key 60000 : ℚ) * (6/10)
          + (elapsedMs : ℚ) * (4/10))))
    ∧ 5000 ≤ readETA (some m) key 60000 ∧ readETA (some m) key 60000 ≤ 900000 := by
  refine ⟨?_, (readETA_avail_range m key 60000).1, (readETA_avail_range m key 60000).2⟩
  rw [← emaRound_eq_jsRound]
  simp [storeGet, updateETA]

/-- Claim C2, counterexample: in Scenario A (key `"eta-generate-zip"` with no
persisted value, default 120_000, task succeeds after 80_000 ms) the
persisted estimate afterwards is not `round(0.6*120_000 + 0.4*80_000) =
104_000` as claimed. -/
theorem scenarioA_counterexample :
    storeGet (runWithETA "eta-generate-zip" 120000 (some emptyStore)
        (Except.ok () : Except String Unit) [TimerEvent.advance 80000]).store
      "eta-generate-zip" ≠ some "104000" := by
  decide

/-- Claim C2, amended: in Scenario A the controller does read estimate
120_000 (the caller-supplied default), but the value persisted after the
80_000 ms success is `round(0.6*60_000 + 0.4*80_000) = 68_000`, because
`updateETA` reads `previous` with the store's own fixed default 60_000
rather than the controller's `defaultMs`. -/
theorem scenarioA_amended :
    (runWithETA "eta-generate-zip" 120000 (some emptyStore)
        (Except.ok () : Except String Unit) [TimerEvent.advance 80000]).ui.expectedMs = 120000
    ∧ storeGet (runWithETA "eta-generate-zip" 120000 (some emptyStore)
        (Except.ok () : Except String Unit) [TimerEvent.advance 80000]).store
        "eta-generate-zip" = some "68000"
    ∧ emaRound 60000 80000 = 68000 :=
  ⟨by decide, by decide, by decide⟩

/-- Claim C3, counterexample: the value persisted by update is not itself
within `[5_000, 900_000]`: an observed elapsed time of 5_000_000 ms on an
empty store persists `"2036000"`, which is outside the range (update does
not clamp what it writes; the clamp happens on the next read). -/
theorem estimate_range_counterexample :
    storeGet (updateETA (some emptyStore) "k" 5000000) "k" = some "2036000"
    ∧ ¬ (5000 ≤ (2036000 : Int) ∧ (2036000 : Int) ≤ 900000) :=
  ⟨by decide, by decide⟩

/-- Claim C3, amended: for every key, any read with the persistence layer
available returns a value within `[5_000, 900_000]` — out-of-range values
are clamped, not rejected — including reads performed after any update; the
value update itself persists is the unclamped rounded EMA and may lie
outside the range until the next read clamps it. -/
theorem estimate_range_on_read (m : Store) (key key2 : String) (defMs elapsedMs : Int) :
    (5000 ≤ readETA (some m) key defMs ∧ readETA (some m) key defMs ≤ 900000)
    ∧ (5000 ≤ readETA (updateETA (some m) key elapsedMs) key2 defMs
       ∧ readETA (updateETA (some m) key elapsedMs) key2 defMs ≤ 900000) := by
  refine ⟨readETA_avail_range m key defMs, ?_⟩
  have h : updateETA (some m) key elapsedMs
      = some (fun k => if k = key
          then some (toString (emaRound (readETA (some m) key 60000) elapsedMs))
          else m k) := rfl
  rw [h]
  exact readETA_avail_range _ key2 defMs

/-- Claim C4: with the persistence layer available, `read(key, defaultMs)`
returns the persisted value when it is present and numeric (parses to an
integer), else `defaultMs`, and the result is always clamped to
`[5_000, 900_000]`; in particular a persisted non-numeric string `"abc"`
with default 60_000 reads as 60_000 (Scenario C). -/
theorem readETA_contract (m : Store) (key : String) (defMs : Int) :
    (5000 ≤ readETA (some m) key defMs ∧ readETA (some m) key defMs ≤ 900000)
    ∧ (m key = none → readETA (some m) key defMs = clamp defMs 5000 900000)
    ∧ (∀ raw n, m key = some raw → parseIntDec raw = some n →
        readETA (some m) key defMs = clamp n 5000 900000)
    ∧ (∀ raw, m key = some raw → parseIntDec raw = none →
        readETA (some m) key defMs = clamp defMs 5000 900000)
    ∧ readETA (some (fun _ => some "abc")) "k" 60000 = 60000 :=
  ⟨readETA_avail_range m key defMs, readETA_eq_of_none m key defMs,
    fun raw n h hp => readETA_eq_of_parse m key defMs raw n h hp,
    fun raw h hp => readETA_eq_of_parse_none m key defMs raw h hp,
    by decide⟩

/-- Claim C4, witness: `readETA_contract` instantiated at a store persisting
`"7000"`, discharging the parse hypotheses concretely. -/
theorem readETA_contract_witness :
    readETA (some (fun _ => some "7000")) "k" 0 = clamp 7000 5000 900000 :=
  (readETA_contract (fun _ => some "7000") "k" 0).2.2.1 "7000" 7000 rfl (by decide)

/-- Claim C10: a persisted string whose prefix parses as a decimal integer
(e.g. `"120000abc"` or `"12.9"`) reads as that leading integer, clamped to
`[5_000, 900_000]`, rather than falling back to the caller-supplied default;
only an absent value or a string with no parsable integer prefix yields the
default (clamped). -/
theorem readETA_leading_integer (m : Store) (key : String) (defMs : Int) :
    (∀ raw n, m key = some raw → parseIntDec raw = some n →
        readETA (some m) key defMs = clamp n 5000 900000)
    ∧ (∀ raw, m key = some raw → parseIntDec raw = none →
        readETA (some m) key defMs = clamp defMs 5000 900000)
    ∧ (m key = none → readETA (some m) key defMs = clamp defMs 5000 900000)
    ∧ parseIntDec "120000abc" = some 120000
    ∧ parseIntDec "12.9" = some 12
    ∧ readETA (some (fun _ => some "120000abc")) "k" 60000 = 120000
    ∧ readETA (some (fun _ => some "12.9")) "k" 60000 = 5000 :=
  ⟨fun raw n h hp => readETA_eq_of_parse m key defMs raw n h hp,
    fun raw h hp => readETA_eq_of_parse_none m key defMs raw h hp,
    readETA_eq_of_none m key defMs,
    by decide, by decide, by decide, by decide⟩

/-- Claim C10, witness: `readETA_leading_integer` instantiated at a store
persisting `"120000abc"`, discharging the parse hypotheses concretely. -/
theorem readETA_leading_integer_witness :
    readETA (some (fun _ => some "120000abc")) "q" 60000 = clamp 120000 5000 900000 :=
  (readETA_leading_integer (fun _ => some "120000abc") "q" 60000).1 "120000abc" 120000 rfl
    (by decide)

/-- Claim C5, counterexample: with the persistence layer unavailable, read
returns the caller-supplied default UNCLAMPED: default 1_000 comes back as
1_000, not `clamp(1_000) = 5_000` as the claim's "(clamped)" requires. -/
theorem readETA_unavailable_counterexample :
    readETA none "k" 1000 = 1000 ∧ readETA none "k" 1000 ≠ clamp 1000 5000 900000 :=
  ⟨rfl, by decide⟩

/-- Claim C5, amended: when the persistence layer is unavailable, read
degrades to returning the caller-supplied default without clamping it,
update and clear degrade to no-ops, and the only failure surfaced by
`runWithETA` is the wrapped task's own outcome (the task's error when it
fails, its result when it succeeds). -/
theorem storage_unavailable_degrades (key : String) (defMs elapsedMs : Int)
    (e : String) (evs : List TimerEvent) :
    readETA none key defMs = defMs
    ∧ updateETA none key elapsedMs = none
    ∧ clearETA none key = none
    ∧ (runWithETA key defMs none (Except.error e : Except String Unit) evs).outcome
        = Except.error e
    ∧ (runWithETA key defMs none (Except.ok () : Except String Unit) evs).outcome
        = Except.ok () :=
  ⟨rfl, rfl, rfl, rfl, rfl⟩

/-- Claim C6: for every expected duration `E` in `[5_000, 900_000]` and every
event-loop trace, a countdown started with `E` first emits `E` itself (the
immediate `onTick(expectedMs)` call), every later fire emits
`max(0, E - elapsedSinceStart)` (by definition of `stepEvent`), and the full
emitted sequence is non-increasing and never contains a negative value. -/
theorem countdown_nonincreasing (E : Int) (t : Nat) (evs : List TimerEvent)
    (hlo : 5000 ≤ E) (hhi : E ≤ 900000) :
    (runEvents (startCountdown E t) evs).emitted.head? = some E
    ∧ List.Chain' (fun a b => b ≤ a) (runEvents (startCountdown E t) evs).emitted
    ∧ ∀ v ∈ (runEvents (startCountdown E t) evs).emitted, 0 ≤ v := by
  have hE : (0:Int) ≤ E := by omega
  obtain ⟨-, hHead, hChain, hMem, -⟩ :=
    tickInv_runEvents evs (startCountdown E t) (tickInv_start E t hE)
  refine ⟨?_, hChain, hMem⟩
  rw [hHead, runEvents_expectedMs]
  rfl

/-- Claim C6, witness: `countdown_nonincreasing` at `E = 120_000` over a
concrete trace (one immediate fire, a 100 ms advance, another fire). -/
theorem countdown_nonincreasing_witness :
    ((5000:Int) ≤ 120000 ∧ (120000:Int) ≤ 900000)
    ∧ ((runEvents (startCountdown 120000 0)
          [TimerEvent.fire, TimerEvent.advance 100, TimerEvent.fire]).emitted.head?
        = some 120000
      ∧ List.Chain' (fun a b => b ≤ a)
          (runEvents (startCountdown 120000 0)
            [TimerEvent.fire, TimerEvent.advance 100, TimerEvent.fire]).emitted
      ∧ ∀ v ∈ (runEvents (startCountdown 120000 0)
          [TimerEvent.fire, TimerEvent.advance 100, TimerEvent.fire]).emitted, 0 ≤ v) :=
  ⟨by decide, countdown_nonincreasing 120000 0
    [TimerEvent.fire, TimerEvent.advance 100, TimerEvent.fire] (by decide) (by decide)⟩

/-- Claim C7: for every countdown session, `stop()` returns exactly the
wall-clock time elapsed since `start` (the total of all clock advances —
exact, hence within one tick-interval of the true elapsed time, and the true
elapsed time even when no fire has occurred yet), and after `stop` no
`onTick` invocation ever occurs: any further trace, including fires already
scheduled concurrently with the stop call, leaves the emitted sequence
unchanged and the interval cancelled. -/
theorem countdown_stop_contract (E : Int) (t : Nat) (evs evsAfter : List TimerEvent) :
    (runEvents (startCountdown E t) evs).stop.2 = totalAdvance evs
    ∧ (runEvents ((runEvents (startCountdown E t) evs).stop.1) evsAfter).emitted
        = (runEvents (startCountdown E t) evs).emitted
    ∧ (runEvents ((runEvents (startCountdown E t) evs).stop.1) evsAfter).active = false := by
  refine ⟨?_, ?_⟩
  · show (runEvents (startCountdown E t) evs).nowMs
        - (runEvents (startCountdown E t) evs).t0 = totalAdvance evs
    rw [runEvents_nowMs, runEvents_t0]
    show t + totalAdvance evs - t = totalAdvance evs
    omega
  · have hstop : ((runEvents (startCountdown E t) evs).stop.1).active = false := rfl
    exact runEvents_inactive evsAfter _ hstop

/-- Claim C8: for every key and every failing task, `runWithETA` leaves the
persisted estimate untouched (no `updateETA` call — the whole store, and in
particular the entry under the key, is unchanged), ends with `busy = false`
and `remainingMs = null` after the completion transition, stops the
countdown (the interval is no longer active), and re-raises the original
error unchanged. -/
theorem runWithETA_failure {ε α : Type} (key : String) (defaultMs : Int)
    (store : Option Store) (e : ε) (evs : List TimerEvent) :
    (runWithETA key defaultMs store (Except.error e : Except ε α) evs).store = store
    ∧ storeGet (runWithETA key defaultMs store (Except.error e : Except ε α) evs).store key
        = storeGet store key
    ∧ (runWithETA key defaultMs store (Except.error e : Except ε α) evs).ui.busy = false
    ∧ (runWithETA key defaultMs store (Except.error e : Except ε α) evs).ui.remainingMs = none
    ∧ (runWithETA key defaultMs store (Except.error e : Except ε α) evs).outcome = Except.error e
    ∧ (runWithETA key defaultMs store (Except.error e : Except ε α) evs).countdownActive = false :=
  ⟨rfl, rfl, rfl, rfl, rfl, rfl⟩

/-- Claim C9: for positive `expectedMs` (the reachable case: every estimate
read is at least 5_000 and every call site supplies a positive default),
`percent` equals `clamp(((expectedMs - remainingMs) / expectedMs) * 100, 0,
100)` when `remainingMs` is non-null, `0` when it is null, and is always in
`[0, 100]`; concretely `expectedMs = 1000` with `remainingMs = 250` gives 75,
null gives 0, and overshoot `remainingMs = 1200` clamps to 0. -/
theorem percent_contract (e r : ℚ) (_he : 0 < e) :
    percent e none = 0
    ∧ percent e (some r) = min 100 (max 0 ((e - r) / e * 100))
    ∧ (0 ≤ percent e (some r) ∧ percent e (some r) ≤ 100)
    ∧ percent 1000 (some 250) = 75
    ∧ percent 1000 none = 0
    ∧ percent 1000 (some 1200) = 0 := by
  refine ⟨rfl, rfl, ⟨?_, ?_⟩, ?_, rfl, ?_⟩
  · show (0:ℚ) ≤ min 100 (max 0 ((e - r) / e * 100))
    exact le_min (by norm_num) (le_max_left _ _)
  · show min 100 (max 0 ((e - r) / e * 100)) ≤ (100:ℚ)
    exact min_le_left _ _
  · show min 100 (max 0 ((1000 - 250) / 1000 * 100)) = (75:ℚ)
    norm_num
  · show min 100 (max 0 ((1000 - 1200) / 1000 * 100)) = (0:ℚ)
    norm_num

/-- Claim C9, witness: `percent_contract` at `expectedMs = 1000`,
`remainingMs = 250`. -/
theorem percent_contract_witness :
    (0:ℚ) < 1000
    ∧ (percent 1000 none = 0
      ∧ percent 1000 (some 250) = min 100 (max 0 ((1000 - 250) / 1000 * 100))
      ∧ (0 ≤ percent 1000 (some 250) ∧ percent 1000 (some 250) ≤ 100)
      ∧ percent 1000 (some 250) = 75
      ∧ percent 1000 none = 0
      ∧ percent 1000 (some 1200) = 0) :=
  ⟨by norm_num, percent_contract 1000 250 (by norm_num)⟩

end ChefContext
